import Mathlib

/-
  Shallow embedding of the AHTxx humidity/temperature sensor driver
  (src/src/AHTxx.cpp).  The I2C bus transport and the delay provider are
  external collaborators: a measurement transaction consumes a `BusResponse`
  describing what the transport reports at each step, and every bus-touching
  operation also returns the trace of bus events (writes, reads, sleeps,
  status assignments) it performed.  Machine bytes are `Nat` with explicit
  `% 256` where uint8_t arithmetic truncates; the float results of the two
  read accessors are modelled as exact rationals.
-/

namespace AHTxx

/-- Sensor variant: AHT1x has a 6-byte frame and no CRC trailer, AHT2x has a
7-byte frame whose last byte is a CRC8 trailer. -/
inductive AHTXX_I2C_SENSOR
  | AHT1x_SENSOR
  | AHT2x_SENSOR
deriving DecidableEq, Repr

open AHTXX_I2C_SENSOR

/-- Status code: success (source comment in getStatus(): 0x00). -/
def AHTXX_NO_ERROR : Nat := 0x00

/-- Status code: sensor busy (source comment in getStatus(): 0x01). -/
def AHTXX_BUSY_ERROR : Nat := 0x01

/-- Status code: sensor did not ACK (source comment in getStatus(): 0x02). -/
def AHTXX_ACK_ERROR : Nat := 0x02

/-- Status code: received data smaller than expected (source comment in
getStatus(): 0x03). -/
def AHTXX_DATA_ERROR : Nat := 0x03

/-- Status code: CRC8 mismatch, AHT2x only (source comment in getStatus():
0x04). -/
def AHTXX_CRC8_ERROR : Nat := 0x04

/-- Generic error sentinel.  Modelled from the spec: the header defining this
constant is not under src/; its value 0xFF is pinned by the source comments
(`_getCalibration()`: "0x08=loaded, 0x00=not loaded, 0xFF=I2C error", where
the code returns AHTXX_ERROR in the error case) and by the fact that
`_readStatusRegister()` returns it through a uint8_t. -/
def AHTXX_ERROR : Nat := 0xFF

/-- Busy bit mask of the status register (spec: busy-bit mask 0x80; source
comment in `_getBusy()`: "0x80=busy"). -/
def AHTXX_STATUS_CTRL_BUSY : Nat := 0x80

/-- Calibration bit mask of the status register (spec: calibration-bit mask
0x08). -/
def AHTXX_STATUS_CTRL_CAL_ON : Nat := 0x08

/-- Command-spacing delay in ms.  Modelled from the spec: a fixed datasheet
constant whose numeric value lives in the header, not under src/ (10 ms in
the released header); no claim depends on the number itself. -/
def AHTXX_CMD_DELAY : Nat := 10

/-- Measurement delay in ms.  Modelled from the spec: a fixed datasheet
constant whose numeric value lives in the header, not under src/ (80 ms in
the released header); claims depend only on it exceeding the command delay. -/
def AHTXX_MEASUREMENT_DELAY : Nat := 80

/-- Soft-reset settling delay in ms (source comment in softReset():
"takes 20ms"). -/
def AHTXX_SOFT_RESET_DELAY : Nat := 20

/-- Start-measurement opcode.  Modelled from the spec: fixed protocol
constant, value from the datasheet (header not under src/). -/
def AHTXX_START_MEASUREMENT_REG : Nat := 0xAC

/-- Start-measurement control byte.  Modelled from the spec: fixed protocol
constant, value from the datasheet (header not under src/). -/
def AHTXX_START_MEASUREMENT_CTRL : Nat := 0x33

/-- Start-measurement NOP control byte.  Modelled from the spec: fixed
protocol constant (header not under src/). -/
def AHTXX_START_MEASUREMENT_CTRL_NOP : Nat := 0x00

/-- Soft-reset opcode.  Modelled from the spec: fixed protocol constant
(header not under src/). -/
def AHTXX_SOFT_RESET_REG : Nat := 0xBA

/-- Status register address.  Modelled from the spec: fixed protocol constant
(header not under src/). -/
def AHTXX_STATUS_REG : Nat := 0x71

/-- AHT1x initialization register address.  Modelled from the spec: fixed
protocol constant (header not under src/). -/
def AHT1X_INIT_REG : Nat := 0xE1

/-- AHT2x initialization register address.  Modelled from the spec: fixed
protocol constant (header not under src/). -/
def AHT2X_INIT_REG : Nat := 0xBE

/-- Initialization register calibration-enable bit.  Modelled from the spec
(header not under src/). -/
def AHTXX_INIT_CTRL_CAL_ON : Nat := 0x08

/-- Initialization register NOP control byte.  Modelled from the spec (header
not under src/). -/
def AHTXX_INIT_CTRL_NOP : Nat := 0x00

/-- Normal-mode bit pattern.  Modelled from the spec (header not under
src/). -/
def AHT1X_INIT_CTRL_NORMAL_MODE : Nat := 0x00

/-- Cycle-mode bit pattern.  Modelled from the spec (header not under
src/). -/
def AHT1X_INIT_CTRL_CYCLE_MODE : Nat := 0x20

/-- Command-mode bit pattern.  Modelled from the spec (header not under
src/). -/
def AHT1X_INIT_CTRL_CMD_MODE : Nat := 0x40

/-- Boolean flag: force a fresh I2C read (header value `true`). -/
def AHTXX_FORCE_READ_DATA : Bool := true

/-- Boolean flag: use the buffered data (header value `false`). -/
def AHTXX_USE_READ_DATA : Bool := false

/-- Session state: bus address, sensor variant, last status code, and the
7-byte raw frame buffer `_rawData` (byte 6 is used by AHT2x only). -/
structure AHTxxState where
  address : Nat
  sensorType : AHTXX_I2C_SENSOR
  status : Nat
  rawData : Fin 7 → Nat

/-- Constructor `AHTxx::AHTxx(address, sensorType)`: stores address and
variant and sets the status to AHTXX_NO_ERROR.  The C++ member array
`_rawData` is left uninitialized, so its (indeterminate) initial content is a
parameter here. -/
def AHTxxNew (address : Nat) (sensorType : AHTXX_I2C_SENSOR)
    (initialRaw : Fin 7 → Nat) : AHTxxState :=
  { address := address, sensorType := sensorType,
    status := AHTXX_NO_ERROR, rawData := initialRaw }

/-- Source `getStatus()`: return the stored status code; pure, no bus access. -/
def getStatus (st : AHTxxState) : Nat :=
  st.status

/-- Source `setType(sensorType)`: overwrite the stored sensor variant. -/
def setType (st : AHTxxState) (sensorType : AHTXX_I2C_SENSOR) : AHTxxState :=
  { st with sensorType := sensorType }

/-- One bus event of a transaction trace. -/
inductive BusEvent
  | beginTx (address : Nat)
  | writeB (b : Nat)
  | endTx (result : Nat)
  | requestRead (count : Nat)
  | sleepMs (ms : Nat)
  | statusSet (s : Nat)
deriving DecidableEq, Repr

/-- What the transport reports during one measurement transaction:
the `endTransmission` result of the trigger write, the available count and
byte of the 1-byte status read, and the available count and bytes of the
bulk read. -/
structure BusResponse where
  triggerResult : Nat
  statusAvail : Nat
  statusByte : Nat
  bulkAvail : Nat
  bulkBytes : Fin 7 → Nat

/-- The status value computed from a status-register byte by `_getBusy`:
busy bit set gives AHTXX_BUSY_ERROR, otherwise AHTXX_NO_ERROR. -/
def busyFlagStatus (b : Nat) : Nat :=
  if b &&& AHTXX_STATUS_CTRL_BUSY = AHTXX_STATUS_CTRL_BUSY then AHTXX_BUSY_ERROR
  else AHTXX_NO_ERROR

/-- Source `_getBusy(readAHT)`: in the force branch, sleep the command delay and
issue a 1-byte read; a wrong available count returns AHTXX_DATA_ERROR
without touching the frame, otherwise the read byte overwrites `_rawData[0]`.
Both branches then classify the busy bit of `_rawData[0]` and store the
result in `_status`.  Returns (new state, returned value, event trace). -/
def _getBusy (st : AHTxxState) (readAHT : Bool) (avail : Nat) (byte : Nat) :
    AHTxxState × Nat × List BusEvent :=
  if readAHT = AHTXX_FORCE_READ_DATA then
    if avail ≠ 1 then
      (st, AHTXX_DATA_ERROR,
        [BusEvent.sleepMs AHTXX_CMD_DELAY, BusEvent.requestRead 1])
    else
      let st1 : AHTxxState := { st with rawData := Function.update st.rawData 0 byte }
      let s := busyFlagStatus (st1.rawData 0)
      ({ st1 with status := s }, s,
        [BusEvent.sleepMs AHTXX_CMD_DELAY, BusEvent.requestRead 1,
         BusEvent.statusSet s])
  else
    let s := busyFlagStatus (st.rawData 0)
    ({ st with status := s }, s, [BusEvent.statusSet s])

/-- The measurement frame length selected in `_readMeasurement`: 6 bytes for
AHT1x, 7 for AHT2x. -/
def dataSizeOf (t : AHTXX_I2C_SENSOR) : Nat :=
  if t = AHT1x_SENSOR then 6 else 7

/-- One shift step of the CRC8 inner loop (uint8_t truncating arithmetic):
if the top bit is set, shift left and xor the polynomial 0x31, else just
shift left. -/
def crc8Step (c : Nat) : Nat :=
  if c &&& 0x80 ≠ 0 then ((c <<< 1) ^^^ 0x31) % 256
  else (c <<< 1) % 256

/-- Absorb one input byte into the CRC8 register: xor it in, then run the
shift step 8 times. -/
def crc8Byte (c b : Nat) : Nat :=
  Nat.iterate crc8Step 8 ((c ^^^ b) % 256)

/-- CRC8 of a byte list, initial register value 0xFF. -/
def crc8List (bytes : List Nat) : Nat :=
  bytes.foldl crc8Byte 0xFF

/-- CRC8 of raw-frame bytes 0 through 5. -/
def crc8Frame (raw : Fin 7 → Nat) : Nat :=
  crc8List [raw 0, raw 1, raw 2, raw 3, raw 4, raw 5]

/-- Source `_checkCRC8()`: for AHT2x, compare the CRC8 of frame bytes 0..5 with
frame byte 6; for any other variant return true. -/
def _checkCRC8 (st : AHTxxState) : Bool :=
  if st.sensorType = AHT2x_SENSOR then
    crc8Frame st.rawData == st.rawData 6
  else
    true

/-- Tail of `_readMeasurement` from the bulk read on: request the
variant-dependent frame length; a wrong available count sets
AHTXX_DATA_ERROR and returns with the frame untouched; otherwise the bytes
are copied verbatim into the frame, the busy bit is re-checked from the
buffered byte 0 without a new bus read, and finally the CRC8 is checked for
AHT2x. -/
def _readMeasurementBulk (st : AHTxxState) (ev : List BusEvent)
    (bus : BusResponse) : AHTxxState × List BusEvent :=
  let dataSize := dataSizeOf st.sensorType
  let ev2 := ev ++ [BusEvent.requestRead dataSize]
  if bus.bulkAvail ≠ dataSize then
    ({ st with status := AHTXX_DATA_ERROR },
      ev2 ++ [BusEvent.statusSet AHTXX_DATA_ERROR])
  else
    let st2 : AHTxxState :=
      { st with rawData := fun i => if i.val < dataSize then bus.bulkBytes i else st.rawData i }
    let gb := _getBusy st2 AHTXX_USE_READ_DATA 0 0
    let st3 : AHTxxState := { gb.1 with status := gb.2.1 }
    let ev3 := ev2 ++ gb.2.2 ++ [BusEvent.statusSet gb.2.1]
    if st3.status ≠ AHTXX_NO_ERROR then
      (st3, ev3)
    else if st3.sensorType = AHT2x_SENSOR ∧ _checkCRC8 st3 ≠ true then
      ({ st3 with status := AHTXX_CRC8_ERROR },
        ev3 ++ [BusEvent.statusSet AHTXX_CRC8_ERROR])
    else
      (st3, ev3)

/-- Source `_readMeasurement()`: trigger the measurement (3-byte command); a failed
`endTransmission` sets AHTXX_ACK_ERROR and aborts; then `_getBusy` with a
forced 1-byte status read; if busy, sleep (measurement delay − command
delay) once and continue, if the status read failed abort; then the bulk
read, post-read busy re-check, and CRC step of `_readMeasurementBulk`. -/
def _readMeasurement (st : AHTxxState) (bus : BusResponse) :
    AHTxxState × List BusEvent :=
  let trigEv := [BusEvent.beginTx st.address,
    BusEvent.writeB AHTXX_START_MEASUREMENT_REG,
    BusEvent.writeB AHTXX_START_MEASUREMENT_CTRL,
    BusEvent.writeB AHTXX_START_MEASUREMENT_CTRL_NOP,
    BusEvent.endTx bus.triggerResult]
  if bus.triggerResult ≠ 0 then
    ({ st with status := AHTXX_ACK_ERROR },
      trigEv ++ [BusEvent.statusSet AHTXX_ACK_ERROR])
  else
    let gb := _getBusy st AHTXX_FORCE_READ_DATA bus.statusAvail bus.statusByte
    let st1 : AHTxxState := { gb.1 with status := gb.2.1 }
    let ev1 := trigEv ++ gb.2.2 ++ [BusEvent.statusSet gb.2.1]
    if st1.status = AHTXX_BUSY_ERROR then
      _readMeasurementBulk st1
        (ev1 ++ [BusEvent.sleepMs (AHTXX_MEASUREMENT_DELAY - AHTXX_CMD_DELAY)]) bus
    else if st1.status ≠ AHTXX_NO_ERROR then
      (st1, ev1)
    else
      _readMeasurementBulk st1 ev1 bus

/-- The 20-bit raw humidity integer as the source computes it:
`h = _rawData[1]; h <<= 8; h |= _rawData[2]; h <<= 4; h |= _rawData[3] >> 4`. -/
def rawHumidity (raw : Fin 7 → Nat) : Nat :=
  (((raw 1) <<< 8 ||| (raw 2)) <<< 4) ||| ((raw 3) >>> 4)

/-- The 20-bit raw temperature integer as the source computes it:
`t = _rawData[3] & 0x0F; t <<= 8; t |= _rawData[4]; t <<= 8; t |= _rawData[5]`. -/
def rawTemperature (raw : Fin 7 → Nat) : Nat :=
  ((((raw 3) &&& 0x0F) <<< 8 ||| (raw 4)) <<< 8) ||| (raw 5)

/-- Source `readHumidity(readI2C)`: optionally run the measurement transaction
first; with a non-Ok status return the AHTXX_ERROR sentinel, otherwise
decode the buffered frame as raw/2^20*100 percent.  The float result is
modelled as an exact rational. -/
def readHumidity (st : AHTxxState) (bus : BusResponse) (readI2C : Bool) :
    AHTxxState × ℚ :=
  let st1 := if readI2C = AHTXX_FORCE_READ_DATA then (_readMeasurement st bus).1 else st
  if st1.status ≠ AHTXX_NO_ERROR then (st1, ((AHTXX_ERROR : Nat) : ℚ))
  else (st1, ((rawHumidity st1.rawData : ℚ) / 0x100000) * 100)

/-- Source `readTemperature(readAHT)`: optionally run the measurement transaction
first; with a non-Ok status return the AHTXX_ERROR sentinel, otherwise
decode the buffered frame as raw/2^20*200 − 50 degrees Celsius.  The float
result is modelled as an exact rational. -/
def readTemperature (st : AHTxxState) (bus : BusResponse) (readAHT : Bool) :
    AHTxxState × ℚ :=
  let st1 := if readAHT = AHTXX_FORCE_READ_DATA then (_readMeasurement st bus).1 else st
  if st1.status ≠ AHTXX_NO_ERROR then (st1, ((AHTXX_ERROR : Nat) : ℚ))
  else (st1, ((rawTemperature st1.rawData : ℚ) / 0x100000) * 200 - 50)

/-- Source `_setInitializationRegister(value)`: command delay, then a 3-byte write
to the variant-specific initialization register; returns true exactly when
`endTransmission` reports 0.  It never writes `_status`. -/
def _setInitializationRegister (st : AHTxxState) (value : Nat) (txResult : Nat) :
    AHTxxState × Bool × List BusEvent :=
  let initReg := if st.sensorType = AHT1x_SENSOR then AHT1X_INIT_REG else AHT2X_INIT_REG
  (st, txResult = 0,
    [BusEvent.sleepMs AHTXX_CMD_DELAY, BusEvent.beginTx st.address,
     BusEvent.writeB initReg, BusEvent.writeB value,
     BusEvent.writeB AHTXX_INIT_CTRL_NOP, BusEvent.endTx txResult])

/-- Source `setNormalMode()`. -/
def setNormalMode (st : AHTxxState) (txResult : Nat) : AHTxxState × Bool × List BusEvent :=
  _setInitializationRegister st (AHTXX_INIT_CTRL_CAL_ON ||| AHT1X_INIT_CTRL_NORMAL_MODE) txResult

/-- Source `setCycleMode()`. -/
def setCycleMode (st : AHTxxState) (txResult : Nat) : AHTxxState × Bool × List BusEvent :=
  _setInitializationRegister st (AHTXX_INIT_CTRL_CAL_ON ||| AHT1X_INIT_CTRL_CYCLE_MODE) txResult

/-- Source `setComandMode()` (source spelling). -/
def setComandMode (st : AHTxxState) (txResult : Nat) : AHTxxState × Bool × List BusEvent :=
  _setInitializationRegister st (AHTXX_INIT_CTRL_CAL_ON ||| AHT1X_INIT_CTRL_CMD_MODE) txResult

/-- Source `_readStatusRegister()`: command delay, write the status register
address, and read one byte; AHTXX_ERROR on a failed transmission or an empty
receive buffer.  Pure in the session state: it never writes `_status`. -/
def _readStatusRegister (txResult : Nat) (avail : Nat) (byte : Nat) : Nat :=
  if txResult ≠ 0 then AHTXX_ERROR
  else if avail = 1 then byte
  else AHTXX_ERROR

/-- Source `_getCalibration()`: mask the calibration bit out of the status register
byte, propagating AHTXX_ERROR. -/
def _getCalibration (txResult : Nat) (avail : Nat) (byte : Nat) : Nat :=
  let value := _readStatusRegister txResult avail byte
  if value ≠ AHTXX_ERROR then value &&& AHTXX_STATUS_CTRL_CAL_ON
  else AHTXX_ERROR

/-- Source `softReset()`: write the reset opcode (false on a failed transmission),
wait the reset delay, then re-run `setNormalMode` and check the calibration
bit, short-circuiting on failure.  It never writes `_status`. -/
def softReset (st : AHTxxState) (resetTx : Nat) (modeTx : Nat)
    (statusTx : Nat) (statusAvail : Nat) (statusByte : Nat) :
    AHTxxState × Bool :=
  if resetTx ≠ 0 then (st, false)
  else
    let nm := setNormalMode st modeTx
    if nm.2.1 = false then (nm.1, false)
    else (nm.1, _getCalibration statusTx statusAvail statusByte = AHTXX_STATUS_CTRL_CAL_ON)

/-- The humidity bit-concatenation exactly as the specification phrases it:
`(frame[1] << 12) | (frame[2] << 4) | (frame[3] >> 4)`.  Second definition
for the refinement comparison with `rawHumidity`, which follows the
shift-accumulate order of the source. -/
def specHumidityRaw (raw : Fin 7 → Nat) : Nat :=
  ((raw 1) <<< 12) ||| ((raw 2) <<< 4) ||| ((raw 3) >>> 4)

/-- The temperature bit-concatenation exactly as the specification phrases
it: `((frame[3] & 0x0F) << 16) | (frame[4] << 8) | frame[5]`.  Second
definition for the refinement comparison with `rawTemperature`. -/
def specTemperatureRaw (raw : Fin 7 → Nat) : Nat :=
  (((raw 3) &&& 0x0F) <<< 16) ||| ((raw 4) <<< 8) ||| (raw 5)

/-- Predicate on trace events: is this event a bus read request? -/
def isRequestRead : BusEvent → Bool
  | BusEvent.requestRead _ => true
  | _ => false

/-- The frame content after a successful bulk copy: the first
`dataSizeOf st.sensorType` bytes come verbatim from the transport, the rest
keeps the previous buffer content. -/
def copiedFrame (st : AHTxxState) (bus : BusResponse) : Fin 7 → Nat :=
  fun i => if i.val < dataSizeOf st.sensorType then bus.bulkBytes i else st.rawData i

/-- A 7-byte frame built from a list (missing entries are 0). -/
def frameOf (l : List Nat) : Fin 7 → Nat :=
  fun i => l.getD i.val 0

end AHTxx

namespace AHTxx

/-! ### Helper lemmas -/

theorem two_pow_mul_lor_eq (n a b : Nat) (hb : b < 2 ^ n) :
    (2 ^ n * a) ||| b = 2 ^ n * a + b :=
  (Nat.mul_add_lt_is_or hb a).symm

theorem shiftLeft_lor_eq (a b n : Nat) (hb : b < 2 ^ n) :
    (a <<< n) ||| b = a * 2 ^ n + b := by
  rw [Nat.shiftLeft_eq, Nat.mul_comm a (2 ^ n), two_pow_mul_lor_eq n a b hb,
    Nat.mul_comm (2 ^ n) a]

/-- Arithmetic form of the humidity concatenation of the source. -/
theorem rawHumidity_eq (raw : Fin 7 → Nat) (h2 : raw 2 < 256) (h3 : raw 3 < 256) :
    rawHumidity raw = ((raw 1) * 256 + raw 2) * 16 + (raw 3) / 16 := by
  unfold rawHumidity
  rw [Nat.shiftRight_eq_div_pow]
  rw [shiftLeft_lor_eq (raw 1) (raw 2) 8 (by simpa using h2)]
  rw [shiftLeft_lor_eq _ _ 4 (by simp; omega)]
  norm_num

/-- Arithmetic form of the humidity concatenation of the spec. -/
theorem specHumidityRaw_eq (raw : Fin 7 → Nat) (h2 : raw 2 < 256) (h3 : raw 3 < 256) :
    specHumidityRaw raw = ((raw 1) * 256 + raw 2) * 16 + (raw 3) / 16 := by
  unfold specHumidityRaw
  rw [Nat.shiftRight_eq_div_pow]
  rw [Nat.shiftLeft_eq (raw 2) 4]
  have hmid : raw 2 * 2 ^ 4 < 2 ^ 12 := by norm_num; omega
  rw [shiftLeft_lor_eq (raw 1) (raw 2 * 2 ^ 4) 12 hmid]
  have hsum : raw 1 * 2 ^ 12 + raw 2 * 2 ^ 4 = 2 ^ 4 * (raw 1 * 2 ^ 8 + raw 2) := by ring
  rw [hsum, two_pow_mul_lor_eq 4 _ _ (by simp; omega)]
  norm_num
  ring

/-- Arithmetic form of the temperature concatenation of the source. -/
theorem rawTemperature_eq (raw : Fin 7 → Nat) (h4 : raw 4 < 256) (h5 : raw 5 < 256) :
    rawTemperature raw = (((raw 3) % 16) * 256 + raw 4) * 256 + raw 5 := by
  unfold rawTemperature
  have hand : raw 3 &&& 15 = raw 3 % 16 := by
    have := Nat.and_pow_two_sub_one_eq_mod (raw 3) 4
    norm_num at this
    exact this
  rw [show (0x0F : Nat) = 15 from rfl, hand]
  rw [shiftLeft_lor_eq (raw 3 % 16) (raw 4) 8 (by simpa using h4)]
  rw [shiftLeft_lor_eq _ _ 8 (by simpa using h5)]
  norm_num

/-- Arithmetic form of the temperature concatenation of the spec. -/
theorem specTemperatureRaw_eq (raw : Fin 7 → Nat) (h4 : raw 4 < 256) (h5 : raw 5 < 256) :
    specTemperatureRaw raw = (((raw 3) % 16) * 256 + raw 4) * 256 + raw 5 := by
  unfold specTemperatureRaw
  have hand : raw 3 &&& 15 = raw 3 % 16 := by
    have := Nat.and_pow_two_sub_one_eq_mod (raw 3) 4
    norm_num at this
    exact this
  rw [show (0x0F : Nat) = 15 from rfl, hand]
  rw [Nat.shiftLeft_eq (raw 4) 8]
  have hmid : raw 4 * 2 ^ 8 < 2 ^ 16 := by norm_num; omega
  rw [shiftLeft_lor_eq (raw 3 % 16) (raw 4 * 2 ^ 8) 16 hmid]
  have hsum : raw 3 % 16 * 2 ^ 16 + raw 4 * 2 ^ 8 = 2 ^ 8 * (raw 3 % 16 * 2 ^ 8 + raw 4) := by
    ring
  rw [hsum, two_pow_mul_lor_eq 8 _ _ (by simpa using h5)]
  norm_num
  ring

/-- The raw humidity integer of the source fits in 20 bits. -/
theorem rawHumidity_lt (raw : Fin 7 → Nat) (h1 : raw 1 < 256) (h2 : raw 2 < 256)
    (h3 : raw 3 < 256) : rawHumidity raw < 2 ^ 20 := by
  rw [rawHumidity_eq raw h2 h3]
  norm_num
  omega

/-- The raw temperature integer of the source fits in 20 bits. -/
theorem rawTemperature_lt (raw : Fin 7 → Nat) (h4 : raw 4 < 256) (h5 : raw 5 < 256) :
    rawTemperature raw < 2 ^ 20 := by
  rw [rawTemperature_eq raw h4 h5]
  norm_num
  omega

theorem and_fifteen (x : Nat) : x &&& 15 = x % 16 := by
  have := Nat.and_pow_two_sub_one_eq_mod x 4
  norm_num at this
  exact this

/-- With an Ok status and no forced read, `readHumidity` leaves the state
alone and returns the decoded buffered frame. -/
theorem readHumidity_buffered (st : AHTxxState) (b : BusResponse)
    (hs : st.status = AHTXX_NO_ERROR) :
    readHumidity st b AHTXX_USE_READ_DATA
      = (st, ((rawHumidity st.rawData : ℚ) / 0x100000) * 100) := by
  simp [readHumidity, AHTXX_USE_READ_DATA, AHTXX_FORCE_READ_DATA, hs, AHTXX_NO_ERROR]

/-- With an Ok status and no forced read, `readTemperature` leaves the state
alone and returns the decoded buffered frame. -/
theorem readTemperature_buffered (st : AHTxxState) (b : BusResponse)
    (hs : st.status = AHTXX_NO_ERROR) :
    readTemperature st b AHTXX_USE_READ_DATA
      = (st, ((rawTemperature st.rawData : ℚ) / 0x100000) * 200 - 50) := by
  simp [readTemperature, AHTXX_USE_READ_DATA, AHTXX_FORCE_READ_DATA, hs, AHTXX_NO_ERROR]

/-! ### Claim theorems -/

/-- C2: with an Ok status, `readHumidity` in buffered mode returns
`((frame[1] << 12) | (frame[2] << 4) | (frame[3] >> 4)) / 2^20 * 100`
(the concatenation of the spec), a frame whose humidity bits encode a 20-bit
integer h decodes to `h / 2^20 * 100`, and the result is a pure function of
the frame with no dependence on the bus. -/
theorem C2_readHumidity_decodes (st : AHTxxState) (bus bus' : BusResponse) (h : Nat)
    (hs : st.status = AHTXX_NO_ERROR)
    (hb : ∀ i, st.rawData i < 256)
    (hh : h < 2 ^ 20)
    (e1 : st.rawData 1 = h >>> 12)
    (e2 : st.rawData 2 = (h >>> 4) % 256)
    (e3 : st.rawData 3 >>> 4 = h % 16) :
    (readHumidity st bus AHTXX_USE_READ_DATA).2
        = ((specHumidityRaw st.rawData : ℚ) / 2 ^ 20) * 100
    ∧ (readHumidity st bus AHTXX_USE_READ_DATA).2 = ((h : ℚ) / 2 ^ 20) * 100
    ∧ readHumidity st bus AHTXX_USE_READ_DATA = readHumidity st bus' AHTXX_USE_READ_DATA := by
  have e1' : st.rawData 1 = h / 4096 := by
    simpa [Nat.shiftRight_eq_div_pow] using e1
  have e2' : st.rawData 2 = h / 16 % 256 := by
    simpa [Nat.shiftRight_eq_div_pow] using e2
  have e3' : st.rawData 3 / 16 = h % 16 := by
    simpa [Nat.shiftRight_eq_div_pow] using e3
  have hh' : h < 1048576 := by
    norm_num at hh
    exact hh
  have hraw : rawHumidity st.rawData = h := by
    rw [rawHumidity_eq st.rawData (hb 2) (hb 3), e1', e2', e3']
    omega
  have hspec : specHumidityRaw st.rawData = rawHumidity st.rawData := by
    rw [specHumidityRaw_eq st.rawData (hb 2) (hb 3),
      rawHumidity_eq st.rawData (hb 2) (hb 3)]
  refine ⟨?_, ?_, ?_⟩
  · rw [readHumidity_buffered st bus hs, hspec]
    norm_num
  · rw [readHumidity_buffered st bus hs, hraw]
    norm_num
  · rw [readHumidity_buffered st bus hs, readHumidity_buffered st bus' hs]

/-- C2 witness: the frame [0x18, 0x12, 0x34, 0x56, 0x78, 0x9A, 0] encodes
the 20-bit humidity integer 0x12345 = 74565 and decodes to 74565/2^20*100. -/
theorem C2_readHumidity_decodes_witness :
    (readHumidity
        ⟨0x38, AHTXX_I2C_SENSOR.AHT1x_SENSOR, 0,
          frameOf [0x18, 0x12, 0x34, 0x56, 0x78, 0x9A, 0]⟩
        ⟨0, 1, 0x18, 6, frameOf []⟩ AHTXX_USE_READ_DATA).2
      = (((74565 : Nat) : ℚ) / 2 ^ 20) * 100 :=
  (C2_readHumidity_decodes
    ⟨0x38, AHTXX_I2C_SENSOR.AHT1x_SENSOR, 0,
      frameOf [0x18, 0x12, 0x34, 0x56, 0x78, 0x9A, 0]⟩
    ⟨0, 1, 0x18, 6, frameOf []⟩ ⟨0, 1, 0x18, 6, frameOf []⟩ 74565
    (by decide) (by decide) (by decide) (by decide) (by decide) (by decide)).2.1

/-- C3: with an Ok status, `readTemperature` in buffered mode returns
`(((frame[3] & 0x0F) << 16) | (frame[4] << 8) | frame[5]) / 2^20 * 200 - 50`
(the concatenation of the spec), a frame whose temperature bits encode a 20-bit
integer t decodes to `t / 2^20 * 200 - 50`, and the result is a pure
function of the frame with no dependence on the bus. -/
theorem C3_readTemperature_decodes (st : AHTxxState) (bus bus' : BusResponse) (t : Nat)
    (hs : st.status = AHTXX_NO_ERROR)
    (hb : ∀ i, st.rawData i < 256)
    (ht : t < 2 ^ 20)
    (e3 : st.rawData 3 &&& 0x0F = t >>> 16)
    (e4 : st.rawData 4 = (t >>> 8) % 256)
    (e5 : st.rawData 5 = t % 256) :
    (readTemperature st bus AHTXX_USE_READ_DATA).2
        = ((specTemperatureRaw st.rawData : ℚ) / 2 ^ 20) * 200 - 50
    ∧ (readTemperature st bus AHTXX_USE_READ_DATA).2 = ((t : ℚ) / 2 ^ 20) * 200 - 50
    ∧ readTemperature st bus AHTXX_USE_READ_DATA
        = readTemperature st bus' AHTXX_USE_READ_DATA := by
  have e3' : st.rawData 3 % 16 = t / 65536 := by
    rw [← and_fifteen (st.rawData 3)]
    simpa [Nat.shiftRight_eq_div_pow] using e3
  have e4' : st.rawData 4 = t / 256 % 256 := by
    simpa [Nat.shiftRight_eq_div_pow] using e4
  have ht' : t < 1048576 := by
    norm_num at ht
    exact ht
  have hraw : rawTemperature st.rawData = t := by
    rw [rawTemperature_eq st.rawData (hb 4) (hb 5), e3', e4', e5]
    omega
  have hspec : specTemperatureRaw st.rawData = rawTemperature st.rawData := by
    rw [specTemperatureRaw_eq st.rawData (hb 4) (hb 5),
      rawTemperature_eq st.rawData (hb 4) (hb 5)]
  refine ⟨?_, ?_, ?_⟩
  · rw [readTemperature_buffered st bus hs, hspec]
    norm_num
  · rw [readTemperature_buffered st bus hs, hraw]
    norm_num
  · rw [readTemperature_buffered st bus hs, readTemperature_buffered st bus' hs]

/-- C3 witness: the frame [0x18, 0x12, 0x34, 0x56, 0x78, 0x9A, 0] encodes
the 20-bit temperature integer 0x6789A = 424090 and decodes to
424090/2^20*200 − 50. -/
theorem C3_readTemperature_decodes_witness :
    (readTemperature
        ⟨0x38, AHTXX_I2C_SENSOR.AHT1x_SENSOR, 0,
          frameOf [0x18, 0x12, 0x34, 0x56, 0x78, 0x9A, 0]⟩
        ⟨0, 1, 0x18, 6, frameOf []⟩ AHTXX_USE_READ_DATA).2
      = (((424090 : Nat) : ℚ) / 2 ^ 20) * 200 - 50 :=
  (C3_readTemperature_decodes
    ⟨0x38, AHTXX_I2C_SENSOR.AHT1x_SENSOR, 0,
      frameOf [0x18, 0x12, 0x34, 0x56, 0x78, 0x9A, 0]⟩
    ⟨0, 1, 0x18, 6, frameOf []⟩ ⟨0, 1, 0x18, 6, frameOf []⟩ 424090
    (by decide) (by decide) (by decide) (by decide) (by decide) (by decide)).2.1

/-- Shared range facts: raw integers fit in 20 bits, decoded humidity lies
in [0, 100), decoded temperature in [−50, 150). -/
theorem decodedRangeFacts (st : AHTxxState) (bus : BusResponse)
    (hs : st.status = AHTXX_NO_ERROR) (hb : ∀ i, st.rawData i < 256) :
    rawHumidity st.rawData < 2 ^ 20
    ∧ rawTemperature st.rawData < 2 ^ 20
    ∧ 0 ≤ (readHumidity st bus AHTXX_USE_READ_DATA).2
    ∧ (readHumidity st bus AHTXX_USE_READ_DATA).2 < 100
    ∧ -50 ≤ (readTemperature st bus AHTXX_USE_READ_DATA).2
    ∧ (readTemperature st bus AHTXX_USE_READ_DATA).2 < 150 := by
  have hH := rawHumidity_lt st.rawData (hb 1) (hb 2) (hb 3)
  have hT := rawTemperature_lt st.rawData (hb 4) (hb 5)
  have hHq : (rawHumidity st.rawData : ℚ) < 1048576 := by
    exact_mod_cast (by norm_num at hH; exact hH : rawHumidity st.rawData < 1048576)
  have hTq : (rawTemperature st.rawData : ℚ) < 1048576 := by
    exact_mod_cast (by norm_num at hT; exact hT : rawTemperature st.rawData < 1048576)
  have hHq0 : (0 : ℚ) ≤ (rawHumidity st.rawData : ℚ) := Nat.cast_nonneg _
  have hTq0 : (0 : ℚ) ≤ (rawTemperature st.rawData : ℚ) := Nat.cast_nonneg _
  have hVH : (readHumidity st bus AHTXX_USE_READ_DATA).2
      = ((rawHumidity st.rawData : ℚ) / 0x100000) * 100 := by
    rw [readHumidity_buffered st bus hs]
  have hVT : (readTemperature st bus AHTXX_USE_READ_DATA).2
      = ((rawTemperature st.rawData : ℚ) / 0x100000) * 200 - 50 := by
    rw [readTemperature_buffered st bus hs]
  refine ⟨hH, hT, ?_, ?_, ?_, ?_⟩
  · rw [hVH]
    positivity
  · rw [hVH]
    rw [div_mul_eq_mul_div, div_lt_iff₀ (by norm_num : (0 : ℚ) < 0x100000)]
    nlinarith [hHq]
  · rw [hVT]
    have : (0 : ℚ) ≤ ((rawTemperature st.rawData : ℚ) / 0x100000) * 200 := by positivity
    linarith
  · rw [hVT]
    rw [div_mul_eq_mul_div, sub_lt_iff_lt_add, div_lt_iff₀ (by norm_num : (0 : ℚ) < 0x100000)]
    nlinarith [hTq]

/-- C10: over exact rational arithmetic, the concatenated raw integers are
strictly below 2^20, the decoded humidity lies in [0, 100) and the decoded
temperature lies in [−50, 150), for every frame of bytes. -/
theorem C10_decoded_value_ranges (st : AHTxxState) (bus : BusResponse)
    (hs : st.status = AHTXX_NO_ERROR) (hb : ∀ i, st.rawData i < 256) :
    rawHumidity st.rawData < 2 ^ 20
    ∧ rawTemperature st.rawData < 2 ^ 20
    ∧ 0 ≤ (readHumidity st bus AHTXX_USE_READ_DATA).2
    ∧ (readHumidity st bus AHTXX_USE_READ_DATA).2 < 100
    ∧ -50 ≤ (readTemperature st bus AHTXX_USE_READ_DATA).2
    ∧ (readTemperature st bus AHTXX_USE_READ_DATA).2 < 150 :=
  decodedRangeFacts st bus hs hb

/-- C10 witness: the all-0xFF frame gives raw integers 2^20 − 1 and decoded
values inside [0, 100) and [−50, 150). -/
theorem C10_decoded_value_ranges_witness :
    rawHumidity (frameOf [0xFF, 0xFF, 0xFF, 0xFF, 0xFF, 0xFF, 0xFF]) < 2 ^ 20
    ∧ rawTemperature (frameOf [0xFF, 0xFF, 0xFF, 0xFF, 0xFF, 0xFF, 0xFF]) < 2 ^ 20
    ∧ 0 ≤ (readHumidity
        ⟨0x38, AHTXX_I2C_SENSOR.AHT2x_SENSOR, 0,
          frameOf [0xFF, 0xFF, 0xFF, 0xFF, 0xFF, 0xFF, 0xFF]⟩
        ⟨0, 1, 0x18, 7, frameOf []⟩ AHTXX_USE_READ_DATA).2
    ∧ (readHumidity
        ⟨0x38, AHTXX_I2C_SENSOR.AHT2x_SENSOR, 0,
          frameOf [0xFF, 0xFF, 0xFF, 0xFF, 0xFF, 0xFF, 0xFF]⟩
        ⟨0, 1, 0x18, 7, frameOf []⟩ AHTXX_USE_READ_DATA).2 < 100
    ∧ -50 ≤ (readTemperature
        ⟨0x38, AHTXX_I2C_SENSOR.AHT2x_SENSOR, 0,
          frameOf [0xFF, 0xFF, 0xFF, 0xFF, 0xFF, 0xFF, 0xFF]⟩
        ⟨0, 1, 0x18, 7, frameOf []⟩ AHTXX_USE_READ_DATA).2
    ∧ (readTemperature
        ⟨0x38, AHTXX_I2C_SENSOR.AHT2x_SENSOR, 0,
          frameOf [0xFF, 0xFF, 0xFF, 0xFF, 0xFF, 0xFF, 0xFF]⟩
        ⟨0, 1, 0x18, 7, frameOf []⟩ AHTXX_USE_READ_DATA).2 < 150 :=
  C10_decoded_value_ranges
    ⟨0x38, AHTXX_I2C_SENSOR.AHT2x_SENSOR, 0,
      frameOf [0xFF, 0xFF, 0xFF, 0xFF, 0xFF, 0xFF, 0xFF]⟩
    ⟨0, 1, 0x18, 7, frameOf []⟩ (by decide) (by decide)

/-- C9: a freshly constructed session has status Ok; buffered-mode
`readHumidity`/`readTemperature` therefore decode whatever the
never-populated frame holds instead of returning the AHTXX_ERROR sentinel —
there is no distinct "no data yet" protection. -/
theorem C9_fresh_session_reads_garbage (address : Nat) (t : AHTXX_I2C_SENSOR)
    (raw : Fin 7 → Nat) (bus : BusResponse) (hb : ∀ i, raw i < 256) :
    getStatus (AHTxxNew address t raw) = AHTXX_NO_ERROR
    ∧ (readHumidity (AHTxxNew address t raw) bus AHTXX_USE_READ_DATA).2
        = ((rawHumidity raw : ℚ) / 2 ^ 20) * 100
    ∧ (readTemperature (AHTxxNew address t raw) bus AHTXX_USE_READ_DATA).2
        = ((rawTemperature raw : ℚ) / 2 ^ 20) * 200 - 50
    ∧ (readHumidity (AHTxxNew address t raw) bus AHTXX_USE_READ_DATA).2
        ≠ ((AHTXX_ERROR : Nat) : ℚ)
    ∧ (readTemperature (AHTxxNew address t raw) bus AHTXX_USE_READ_DATA).2
        ≠ ((AHTXX_ERROR : Nat) : ℚ) := by
  have hs : (AHTxxNew address t raw).status = AHTXX_NO_ERROR := rfl
  have hraw : (AHTxxNew address t raw).rawData = raw := rfl
  have hb' : ∀ i, (AHTxxNew address t raw).rawData i < 256 := by
    rw [hraw]
    exact hb
  have hrange := decodedRangeFacts (AHTxxNew address t raw) bus hs hb'
  have hVH : (readHumidity (AHTxxNew address t raw) bus AHTXX_USE_READ_DATA).2
      = ((rawHumidity raw : ℚ) / 0x100000) * 100 := by
    rw [readHumidity_buffered _ bus hs, hraw]
  have hVT : (readTemperature (AHTxxNew address t raw) bus AHTXX_USE_READ_DATA).2
      = ((rawTemperature raw : ℚ) / 0x100000) * 200 - 50 := by
    rw [readTemperature_buffered _ bus hs, hraw]
  have hErr : ((AHTXX_ERROR : Nat) : ℚ) = 255 := by
    norm_num [AHTXX_ERROR]
  refine ⟨rfl, by rw [hVH]; norm_num, by rw [hVT]; norm_num, ?_, ?_⟩
  · rw [hErr]
    exact ne_of_lt (lt_trans hrange.2.2.2.1 (by norm_num))
  · rw [hErr]
    exact ne_of_lt (lt_trans hrange.2.2.2.2.2 (by norm_num))

/-- C9 witness: a fresh session over an arbitrary garbage frame reports Ok
and decodes that frame. -/
theorem C9_fresh_session_reads_garbage_witness :
    getStatus (AHTxxNew 0x38 AHTXX_I2C_SENSOR.AHT2x_SENSOR
        (frameOf [1, 2, 3, 4, 5, 6, 7])) = AHTXX_NO_ERROR
    ∧ (readHumidity (AHTxxNew 0x38 AHTXX_I2C_SENSOR.AHT2x_SENSOR
          (frameOf [1, 2, 3, 4, 5, 6, 7]))
        ⟨0, 1, 0x18, 7, frameOf []⟩ AHTXX_USE_READ_DATA).2
        = ((rawHumidity (frameOf [1, 2, 3, 4, 5, 6, 7]) : ℚ) / 2 ^ 20) * 100
    ∧ (readTemperature (AHTxxNew 0x38 AHTXX_I2C_SENSOR.AHT2x_SENSOR
          (frameOf [1, 2, 3, 4, 5, 6, 7]))
        ⟨0, 1, 0x18, 7, frameOf []⟩ AHTXX_USE_READ_DATA).2
        = ((rawTemperature (frameOf [1, 2, 3, 4, 5, 6, 7]) : ℚ) / 2 ^ 20) * 200 - 50
    ∧ (readHumidity (AHTxxNew 0x38 AHTXX_I2C_SENSOR.AHT2x_SENSOR
          (frameOf [1, 2, 3, 4, 5, 6, 7]))
        ⟨0, 1, 0x18, 7, frameOf []⟩ AHTXX_USE_READ_DATA).2
        ≠ ((AHTXX_ERROR : Nat) : ℚ)
    ∧ (readTemperature (AHTxxNew 0x38 AHTXX_I2C_SENSOR.AHT2x_SENSOR
          (frameOf [1, 2, 3, 4, 5, 6, 7]))
        ⟨0, 1, 0x18, 7, frameOf []⟩ AHTXX_USE_READ_DATA).2
        ≠ ((AHTXX_ERROR : Nat) : ℚ) :=
  C9_fresh_session_reads_garbage 0x38 AHTXX_I2C_SENSOR.AHT2x_SENSOR
    (frameOf [1, 2, 3, 4, 5, 6, 7]) ⟨0, 1, 0x18, 7, frameOf []⟩ (by decide)

/-- C7 counterexample: on an errored session both accessors return the
sentinel 255 = 0xFF, which is not below the −40…125 range (it is above it),
refuting the description in the claim of the sentinel as lying below that range. -/
theorem C7_sentinel_not_below_range :
    (readHumidity ⟨0x38, AHTXX_I2C_SENSOR.AHT1x_SENSOR, AHTXX_ACK_ERROR, frameOf []⟩
        ⟨0, 1, 0x18, 6, frameOf []⟩ AHTXX_USE_READ_DATA).2 = 255
    ∧ (readTemperature ⟨0x38, AHTXX_I2C_SENSOR.AHT1x_SENSOR, AHTXX_ACK_ERROR, frameOf []⟩
        ⟨0, 1, 0x18, 6, frameOf []⟩ AHTXX_USE_READ_DATA).2 = 255
    ∧ ¬((readHumidity ⟨0x38, AHTXX_I2C_SENSOR.AHT1x_SENSOR, AHTXX_ACK_ERROR, frameOf []⟩
        ⟨0, 1, 0x18, 6, frameOf []⟩ AHTXX_USE_READ_DATA).2 < -40) := by
  refine ⟨?_, ?_, ?_⟩ <;>
    norm_num [readHumidity, readTemperature, AHTXX_USE_READ_DATA, AHTXX_FORCE_READ_DATA,
      AHTXX_ACK_ERROR, AHTXX_NO_ERROR, AHTXX_ERROR]

/-- C7 amended: on every non-Ok status both accessors ignore the frame and
return the fixed sentinel AHTXX_ERROR = 255, which lies outside (above) the
valid physical ranges and differs from 0, so failure is distinguishable from
a legitimate zero reading. -/
theorem C7_error_sentinel (st : AHTxxState) (bus : BusResponse)
    (hs : st.status ≠ AHTXX_NO_ERROR) :
    (readHumidity st bus AHTXX_USE_READ_DATA).2 = ((AHTXX_ERROR : Nat) : ℚ)
    ∧ (readTemperature st bus AHTXX_USE_READ_DATA).2 = ((AHTXX_ERROR : Nat) : ℚ)
    ∧ ((AHTXX_ERROR : Nat) : ℚ) > 125
    ∧ ((AHTXX_ERROR : Nat) : ℚ) > 100
    ∧ ((AHTXX_ERROR : Nat) : ℚ) ≠ 0 := by
  refine ⟨?_, ?_, by norm_num [AHTXX_ERROR], by norm_num [AHTXX_ERROR],
    by norm_num [AHTXX_ERROR]⟩
  · simp [readHumidity, AHTXX_USE_READ_DATA, AHTXX_FORCE_READ_DATA, hs]
  · simp [readTemperature, AHTXX_USE_READ_DATA, AHTXX_FORCE_READ_DATA, hs]

/-- C7 amended witness: concrete errored session (status = AHTXX_DATA_ERROR). -/
theorem C7_error_sentinel_witness :
    (readHumidity ⟨0x38, AHTXX_I2C_SENSOR.AHT2x_SENSOR, AHTXX_DATA_ERROR, frameOf [1, 2]⟩
        ⟨0, 1, 0x18, 7, frameOf []⟩ AHTXX_USE_READ_DATA).2 = ((AHTXX_ERROR : Nat) : ℚ)
    ∧ (readTemperature ⟨0x38, AHTXX_I2C_SENSOR.AHT2x_SENSOR, AHTXX_DATA_ERROR, frameOf [1, 2]⟩
        ⟨0, 1, 0x18, 7, frameOf []⟩ AHTXX_USE_READ_DATA).2 = ((AHTXX_ERROR : Nat) : ℚ)
    ∧ ((AHTXX_ERROR : Nat) : ℚ) > 125
    ∧ ((AHTXX_ERROR : Nat) : ℚ) > 100
    ∧ ((AHTXX_ERROR : Nat) : ℚ) ≠ 0 :=
  C7_error_sentinel ⟨0x38, AHTXX_I2C_SENSOR.AHT2x_SENSOR, AHTXX_DATA_ERROR, frameOf [1, 2]⟩
    ⟨0, 1, 0x18, 7, frameOf []⟩ (by decide)

/-- C8 counterexample: after a fully successful setNormalMode and a fully
successful softReset (ACKed transmissions, calibration bit on), the stored
status code still holds the stale AHTXX_ACK_ERROR: these operations do not
overwrite the status code. -/
theorem C8_stale_status_after_mode_ops :
    (setNormalMode ⟨0x38, AHTXX_I2C_SENSOR.AHT1x_SENSOR, AHTXX_ACK_ERROR, frameOf []⟩ 0).2.1
        = true
    ∧ getStatus (setNormalMode
        ⟨0x38, AHTXX_I2C_SENSOR.AHT1x_SENSOR, AHTXX_ACK_ERROR, frameOf []⟩ 0).1
        = AHTXX_ACK_ERROR
    ∧ (softReset ⟨0x38, AHTXX_I2C_SENSOR.AHT1x_SENSOR, AHTXX_ACK_ERROR, frameOf []⟩
        0 0 0 1 0x18).2 = true
    ∧ getStatus (softReset ⟨0x38, AHTXX_I2C_SENSOR.AHT1x_SENSOR, AHTXX_ACK_ERROR, frameOf []⟩
        0 0 0 1 0x18).1 = AHTXX_ACK_ERROR
    ∧ AHTXX_ACK_ERROR ≠ AHTXX_NO_ERROR := by
  decide

/-- C8 amended: the mode-setting operations and softReset never modify the
session state at all — in particular the stored status code is left
unchanged; their outcome is reported only through their boolean return
value.  Only the measurement transaction and its busy check overwrite the
status code. -/
theorem C8_mode_ops_keep_status (st : AHTxxState)
    (v tx rtx mtx stx sa sb : Nat) :
    (_setInitializationRegister st v tx).1 = st
    ∧ (setNormalMode st tx).1.status = st.status
    ∧ (setCycleMode st tx).1.status = st.status
    ∧ (setComandMode st tx).1.status = st.status
    ∧ (softReset st rtx mtx stx sa sb).1.status = st.status := by
  refine ⟨rfl, rfl, rfl, rfl, ?_⟩
  unfold softReset setNormalMode _setInitializationRegister
  split_ifs <;> first
    | rfl
    | (dsimp only; split <;> rfl)

/-- C6: if `endTransmission` of the measurement trigger reports a non-zero
result, the measurement transaction sets AHTXX_ACK_ERROR and aborts: no read
request of any kind appears in the trace and the raw frame is untouched. -/
theorem C6_trigger_nack_aborts (st : AHTxxState) (bus : BusResponse)
    (ht : bus.triggerResult ≠ 0) :
    (_readMeasurement st bus).1.status = AHTXX_ACK_ERROR
    ∧ (_readMeasurement st bus).1.rawData = st.rawData
    ∧ ((_readMeasurement st bus).2.countP isRequestRead) = 0 := by
  have key : _readMeasurement st bus
      = ({ st with status := AHTXX_ACK_ERROR },
        [BusEvent.beginTx st.address,
          BusEvent.writeB AHTXX_START_MEASUREMENT_REG,
          BusEvent.writeB AHTXX_START_MEASUREMENT_CTRL,
          BusEvent.writeB AHTXX_START_MEASUREMENT_CTRL_NOP,
          BusEvent.endTx bus.triggerResult,
          BusEvent.statusSet AHTXX_ACK_ERROR]) := by
    unfold _readMeasurement
    simp [ht]
  rw [key]
  refine ⟨rfl, rfl, ?_⟩
  rfl

/-- C6 witness: an AddressNack (result 2) on the trigger step. -/
theorem C6_trigger_nack_aborts_witness :
    (_readMeasurement ⟨0x38, AHTXX_I2C_SENSOR.AHT2x_SENSOR, AHTXX_NO_ERROR, frameOf [9, 9]⟩
        ⟨2, 1, 0x18, 7, frameOf []⟩).1.status = AHTXX_ACK_ERROR
    ∧ (_readMeasurement ⟨0x38, AHTXX_I2C_SENSOR.AHT2x_SENSOR, AHTXX_NO_ERROR, frameOf [9, 9]⟩
        ⟨2, 1, 0x18, 7, frameOf []⟩).1.rawData = frameOf [9, 9]
    ∧ ((_readMeasurement ⟨0x38, AHTXX_I2C_SENSOR.AHT2x_SENSOR, AHTXX_NO_ERROR, frameOf [9, 9]⟩
        ⟨2, 1, 0x18, 7, frameOf []⟩).2.countP isRequestRead) = 0 :=
  C6_trigger_nack_aborts ⟨0x38, AHTXX_I2C_SENSOR.AHT2x_SENSOR, AHTXX_NO_ERROR, frameOf [9, 9]⟩
    ⟨2, 1, 0x18, 7, frameOf []⟩ (by decide)

/-- C1 counterexample: with the old frame all zero, a successful trigger and
status read (status byte 0x18) followed by a bulk read reporting 0 available
bytes ends with status AHTXX_DATA_ERROR — but frame byte 0 now holds 0x18,
so not every byte of the previously buffered frame is left unchanged. -/
theorem C1_byte0_overwritten_on_dataError :
    (_readMeasurement ⟨0x38, AHTXX_I2C_SENSOR.AHT2x_SENSOR, AHTXX_NO_ERROR, frameOf []⟩
        ⟨0, 1, 0x18, 0, frameOf []⟩).1.status = AHTXX_DATA_ERROR
    ∧ (_readMeasurement ⟨0x38, AHTXX_I2C_SENSOR.AHT2x_SENSOR, AHTXX_NO_ERROR, frameOf []⟩
        ⟨0, 1, 0x18, 0, frameOf []⟩).1.rawData 0 = 0x18
    ∧ frameOf [] 0 = 0
    ∧ (0x18 : Nat) ≠ 0 := by
  decide

/-- C1 amended: if the bulk read reports a byte count different from the
expected frame length, the status code becomes AHTXX_DATA_ERROR and frame
bytes 1..6 are left unchanged; frame byte 0, however, already holds the
status byte fetched by the post-trigger busy check of the same
transaction. -/
theorem C1_dataError_keeps_bytes_1_to_6 (st : AHTxxState) (bus : BusResponse)
    (ht : bus.triggerResult = 0) (ha : bus.statusAvail = 1)
    (hb : bus.bulkAvail ≠ dataSizeOf st.sensorType) :
    (_readMeasurement st bus).1.status = AHTXX_DATA_ERROR
    ∧ (∀ i : Fin 7, i ≠ 0 → (_readMeasurement st bus).1.rawData i = st.rawData i)
    ∧ (_readMeasurement st bus).1.rawData 0 = bus.statusByte := by
  have key : (_readMeasurement st bus).1
      = { st with
            status := AHTXX_DATA_ERROR
            rawData := Function.update st.rawData 0 bus.statusByte } := by
    unfold _readMeasurement _getBusy _readMeasurementBulk
    by_cases hbusy : bus.statusByte &&& AHTXX_STATUS_CTRL_BUSY = AHTXX_STATUS_CTRL_BUSY <;>
      simp [ht, ha, hb, busyFlagStatus, hbusy, AHTXX_FORCE_READ_DATA, AHTXX_USE_READ_DATA,
        AHTXX_NO_ERROR, AHTXX_BUSY_ERROR, AHTXX_DATA_ERROR]
  refine ⟨by rw [key], ?_, ?_⟩
  · intro i hi
    rw [key]
    exact Function.update_noteq hi bus.statusByte st.rawData
  · rw [key]
    exact Function.update_same (0 : Fin 7) bus.statusByte st.rawData

/-- C1 amended witness: old frame [7,7,7,7,7,7,7], status byte 0x18, bulk
read reports 0 of the expected 7 bytes. -/
theorem C1_dataError_keeps_bytes_1_to_6_witness :
    (_readMeasurement ⟨0x38, AHTXX_I2C_SENSOR.AHT2x_SENSOR, AHTXX_NO_ERROR,
        frameOf [7, 7, 7, 7, 7, 7, 7]⟩ ⟨0, 1, 0x18, 0, frameOf []⟩).1.status = AHTXX_DATA_ERROR
    ∧ (∀ i : Fin 7, i ≠ 0 →
        (_readMeasurement ⟨0x38, AHTXX_I2C_SENSOR.AHT2x_SENSOR, AHTXX_NO_ERROR,
          frameOf [7, 7, 7, 7, 7, 7, 7]⟩ ⟨0, 1, 0x18, 0, frameOf []⟩).1.rawData i
          = frameOf [7, 7, 7, 7, 7, 7, 7] i)
    ∧ (_readMeasurement ⟨0x38, AHTXX_I2C_SENSOR.AHT2x_SENSOR, AHTXX_NO_ERROR,
        frameOf [7, 7, 7, 7, 7, 7, 7]⟩ ⟨0, 1, 0x18, 0, frameOf []⟩).1.rawData 0 = 0x18 :=
  C1_dataError_keeps_bytes_1_to_6
    ⟨0x38, AHTXX_I2C_SENSOR.AHT2x_SENSOR, AHTXX_NO_ERROR, frameOf [7, 7, 7, 7, 7, 7, 7]⟩
    ⟨0, 1, 0x18, 0, frameOf []⟩ (by decide) (by decide) (by decide)

/-- The bulk phase issues exactly one further read request on top of the
trace it was handed, whatever the transport reports. -/
theorem readMeasurementBulk_countP (st : AHTxxState) (ev : List BusEvent)
    (bus : BusResponse) :
    ((_readMeasurementBulk st ev bus).2.countP isRequestRead)
      = ev.countP isRequestRead + 1 := by
  simp only [_readMeasurementBulk, _getBusy, AHTXX_USE_READ_DATA, AHTXX_FORCE_READ_DATA,
    Bool.false_eq_true, if_false]
  split_ifs <;>
    simp [List.countP_append, List.countP_cons, isRequestRead]

/-- The bulk phase adds no sleep to the trace it was handed. -/
theorem readMeasurementBulk_count_sleep (st : AHTxxState) (ev : List BusEvent)
    (bus : BusResponse) (ms : Nat) :
    ((_readMeasurementBulk st ev bus).2.count (BusEvent.sleepMs ms))
      = ev.count (BusEvent.sleepMs ms) := by
  simp only [_readMeasurementBulk, _getBusy, AHTXX_USE_READ_DATA, AHTXX_FORCE_READ_DATA,
    Bool.false_eq_true, if_false]
  split_ifs <;>
    simp [List.count_append, List.count_cons]

/-- The bulk phase always requests the variant-dependent frame length. -/
theorem readMeasurementBulk_mem_request (st : AHTxxState) (ev : List BusEvent)
    (bus : BusResponse) :
    BusEvent.requestRead (dataSizeOf st.sensorType) ∈ (_readMeasurementBulk st ev bus).2 := by
  simp only [_readMeasurementBulk, _getBusy, AHTXX_USE_READ_DATA, AHTXX_FORCE_READ_DATA,
    Bool.false_eq_true, if_false]
  split_ifs <;> simp

/-- The bulk phase preserves every event of the trace it was handed. -/
theorem readMeasurementBulk_mem_of_mem (st : AHTxxState) (ev : List BusEvent)
    (bus : BusResponse) (e : BusEvent) (he : e ∈ ev) :
    e ∈ (_readMeasurementBulk st ev bus).2 := by
  simp only [_readMeasurementBulk, _getBusy, AHTXX_USE_READ_DATA, AHTXX_FORCE_READ_DATA,
    Bool.false_eq_true, if_false]
  split_ifs <;> simp [he]

/-- C5: after a successful trigger and a successful 1-byte status read whose
busy bit is set, the driver records status Busy, sleeps exactly once for
(measurement delay − command delay), proceeds to the bulk read, and issues
exactly two read requests in the whole transaction (the status read and the
bulk read) — the post-read busy re-check reads nothing and there is no
second wait-and-recheck cycle. -/
theorem C5_busy_single_wait (st : AHTxxState) (bus : BusResponse)
    (ht : bus.triggerResult = 0) (ha : bus.statusAvail = 1)
    (hbusy : bus.statusByte &&& AHTXX_STATUS_CTRL_BUSY = AHTXX_STATUS_CTRL_BUSY) :
    BusEvent.statusSet AHTXX_BUSY_ERROR ∈ (_readMeasurement st bus).2
    ∧ ((_readMeasurement st bus).2.count
        (BusEvent.sleepMs (AHTXX_MEASUREMENT_DELAY - AHTXX_CMD_DELAY))) = 1
    ∧ BusEvent.requestRead (dataSizeOf st.sensorType) ∈ (_readMeasurement st bus).2
    ∧ ((_readMeasurement st bus).2.countP isRequestRead) = 2 := by
  have hred : _readMeasurement st bus = _readMeasurementBulk
      { st with
          status := AHTXX_BUSY_ERROR
          rawData := Function.update st.rawData 0 bus.statusByte }
      [BusEvent.beginTx st.address, BusEvent.writeB AHTXX_START_MEASUREMENT_REG,
        BusEvent.writeB AHTXX_START_MEASUREMENT_CTRL,
        BusEvent.writeB AHTXX_START_MEASUREMENT_CTRL_NOP,
        BusEvent.endTx 0, BusEvent.sleepMs AHTXX_CMD_DELAY, BusEvent.requestRead 1,
        BusEvent.statusSet AHTXX_BUSY_ERROR, BusEvent.statusSet AHTXX_BUSY_ERROR,
        BusEvent.sleepMs (AHTXX_MEASUREMENT_DELAY - AHTXX_CMD_DELAY)] bus := by
    simp only [_readMeasurement, _getBusy, AHTXX_FORCE_READ_DATA]
    simp [ht, ha, busyFlagStatus, hbusy]
  rw [hred]
  refine ⟨?_, ?_, ?_, ?_⟩
  · exact readMeasurementBulk_mem_of_mem _ _ _ _ (by simp)
  · rw [readMeasurementBulk_count_sleep]
    simp [List.count_cons, AHTXX_CMD_DELAY, AHTXX_MEASUREMENT_DELAY]
  · exact readMeasurementBulk_mem_request _ _ _
  · rw [readMeasurementBulk_countP]
    simp [List.countP_cons, isRequestRead]

/-- C5 witness: busy status byte 0x98 after the trigger, AHT2x frame. -/
theorem C5_busy_single_wait_witness :
    BusEvent.statusSet AHTXX_BUSY_ERROR
      ∈ (_readMeasurement ⟨0x38, AHTXX_I2C_SENSOR.AHT2x_SENSOR, AHTXX_NO_ERROR, frameOf []⟩
          ⟨0, 1, 0x98, 7, frameOf [0x18, 1, 2, 3, 4, 5, 6]⟩).2
    ∧ ((_readMeasurement ⟨0x38, AHTXX_I2C_SENSOR.AHT2x_SENSOR, AHTXX_NO_ERROR, frameOf []⟩
          ⟨0, 1, 0x98, 7, frameOf [0x18, 1, 2, 3, 4, 5, 6]⟩).2.count
        (BusEvent.sleepMs (AHTXX_MEASUREMENT_DELAY - AHTXX_CMD_DELAY))) = 1
    ∧ BusEvent.requestRead (dataSizeOf AHTXX_I2C_SENSOR.AHT2x_SENSOR)
      ∈ (_readMeasurement ⟨0x38, AHTXX_I2C_SENSOR.AHT2x_SENSOR, AHTXX_NO_ERROR, frameOf []⟩
          ⟨0, 1, 0x98, 7, frameOf [0x18, 1, 2, 3, 4, 5, 6]⟩).2
    ∧ ((_readMeasurement ⟨0x38, AHTXX_I2C_SENSOR.AHT2x_SENSOR, AHTXX_NO_ERROR, frameOf []⟩
          ⟨0, 1, 0x98, 7, frameOf [0x18, 1, 2, 3, 4, 5, 6]⟩).2.countP isRequestRead) = 2 :=
  C5_busy_single_wait ⟨0x38, AHTXX_I2C_SENSOR.AHT2x_SENSOR, AHTXX_NO_ERROR, frameOf []⟩
    ⟨0, 1, 0x98, 7, frameOf [0x18, 1, 2, 3, 4, 5, 6]⟩ (by decide) (by decide) (by decide)

theorem dataSizeOf_pos (t : AHTXX_I2C_SENSOR) : 0 < dataSizeOf t := by
  cases t <;> simp [dataSizeOf]

/-- After a successful trigger and a successful 1-byte status read, the
measurement transaction continues into the bulk phase with `_rawData[0]`
already overwritten by the status byte (whether or not the busy bit was
set). -/
theorem readMeasurement_to_bulk (st : AHTxxState) (bus : BusResponse)
    (ht : bus.triggerResult = 0) (ha : bus.statusAvail = 1) :
    ∃ ev, _readMeasurement st bus = _readMeasurementBulk
      { st with
          status := busyFlagStatus bus.statusByte
          rawData := Function.update st.rawData 0 bus.statusByte } ev bus := by
  by_cases hbusy : bus.statusByte &&& AHTXX_STATUS_CTRL_BUSY = AHTXX_STATUS_CTRL_BUSY
  · refine ⟨[BusEvent.beginTx st.address, BusEvent.writeB AHTXX_START_MEASUREMENT_REG,
      BusEvent.writeB AHTXX_START_MEASUREMENT_CTRL,
      BusEvent.writeB AHTXX_START_MEASUREMENT_CTRL_NOP,
      BusEvent.endTx 0, BusEvent.sleepMs AHTXX_CMD_DELAY, BusEvent.requestRead 1,
      BusEvent.statusSet AHTXX_BUSY_ERROR, BusEvent.statusSet AHTXX_BUSY_ERROR,
      BusEvent.sleepMs (AHTXX_MEASUREMENT_DELAY - AHTXX_CMD_DELAY)], ?_⟩
    simp only [_readMeasurement, _getBusy, AHTXX_FORCE_READ_DATA]
    simp [ht, ha, busyFlagStatus, hbusy]
  · refine ⟨[BusEvent.beginTx st.address, BusEvent.writeB AHTXX_START_MEASUREMENT_REG,
      BusEvent.writeB AHTXX_START_MEASUREMENT_CTRL,
      BusEvent.writeB AHTXX_START_MEASUREMENT_CTRL_NOP,
      BusEvent.endTx 0, BusEvent.sleepMs AHTXX_CMD_DELAY, BusEvent.requestRead 1,
      BusEvent.statusSet AHTXX_NO_ERROR, BusEvent.statusSet AHTXX_NO_ERROR], ?_⟩
    simp only [_readMeasurement, _getBusy, AHTXX_FORCE_READ_DATA]
    simp [ht, ha, busyFlagStatus, hbusy, AHTXX_BUSY_ERROR, AHTXX_NO_ERROR]

/-- AHT2x bulk phase: with the expected 7 available bytes and the fresh
busy bit of the fresh frame clear, the whole transport frame is buffered verbatim and
the final status is Ok on a CRC match, AHTXX_CRC8_ERROR otherwise. -/
theorem readMeasurementBulk_state_aht2x (st : AHTxxState) (ev : List BusEvent)
    (bus : BusResponse)
    (hty : st.sensorType = AHTXX_I2C_SENSOR.AHT2x_SENSOR)
    (hbulk : bus.bulkAvail = 7)
    (hnb : bus.bulkBytes 0 &&& AHTXX_STATUS_CTRL_BUSY ≠ AHTXX_STATUS_CTRL_BUSY) :
    (_readMeasurementBulk st ev bus).1
      = { st with
            status := if crc8Frame bus.bulkBytes = bus.bulkBytes 6
              then AHTXX_NO_ERROR else AHTXX_CRC8_ERROR
            rawData := bus.bulkBytes } := by
  have hcf : (fun i : Fin 7 =>
      if (i : Nat) < dataSizeOf st.sensorType then bus.bulkBytes i else st.rawData i)
        = bus.bulkBytes := by
    funext i
    have hi : (i : Nat) < 7 := i.isLt
    simp [hty, dataSizeOf, hi]
  simp only [_readMeasurementBulk, _getBusy, _checkCRC8, AHTXX_USE_READ_DATA,
    AHTXX_FORCE_READ_DATA, Bool.false_eq_true, if_false]
  rw [hcf]
  simp [hbulk, hty, dataSizeOf, busyFlagStatus, hnb, beq_iff_eq, ite_not]
  split <;> rfl

/-- AHT1x bulk phase: with the expected 6 available bytes and the fresh
busy bit of the fresh frame clear, the first 6 transport bytes are buffered (byte 6 is
kept) and the final status is always Ok — no CRC check applies. -/
theorem readMeasurementBulk_state_aht1x (st : AHTxxState) (ev : List BusEvent)
    (bus : BusResponse)
    (hty : st.sensorType = AHTXX_I2C_SENSOR.AHT1x_SENSOR)
    (hbulk : bus.bulkAvail = 6)
    (hnb : bus.bulkBytes 0 &&& AHTXX_STATUS_CTRL_BUSY ≠ AHTXX_STATUS_CTRL_BUSY) :
    (_readMeasurementBulk st ev bus).1
      = { st with
            status := AHTXX_NO_ERROR
            rawData := fun i : Fin 7 =>
              if (i : Nat) < 6 then bus.bulkBytes i else st.rawData i } := by
  simp only [_readMeasurementBulk, _getBusy, _checkCRC8, AHTXX_USE_READ_DATA,
    AHTXX_FORCE_READ_DATA, Bool.false_eq_true, if_false]
  simp [hbulk, hty, dataSizeOf, busyFlagStatus, hnb]

/-- C4: when the measurement transaction reaches the integrity step (trigger
ACKed, status read of 1 byte, bulk read of the expected length, busy bit of
the fresh frame clear), the AHT2x variant buffers the transport bytes
verbatim and ends with status AHTXX_CRC8_ERROR exactly when the CRC8 over
frame bytes 0..5 (initial value 0xFF, polynomial 0x31, MSB-first, no final
XOR) differs from frame byte 6; the AHT1x variant always ends with status
AHTXX_NO_ERROR. -/
theorem C4_crc_gate (st : AHTxxState) (bus : BusResponse)
    (ht : bus.triggerResult = 0) (ha : bus.statusAvail = 1)
    (hbulk : bus.bulkAvail = dataSizeOf st.sensorType)
    (hnb : bus.bulkBytes 0 &&& AHTXX_STATUS_CTRL_BUSY ≠ AHTXX_STATUS_CTRL_BUSY) :
    (st.sensorType = AHTXX_I2C_SENSOR.AHT2x_SENSOR →
      (_readMeasurement st bus).1.rawData = bus.bulkBytes
      ∧ ((_readMeasurement st bus).1.status = AHTXX_CRC8_ERROR
        ↔ crc8Frame ((_readMeasurement st bus).1.rawData)
            ≠ (_readMeasurement st bus).1.rawData 6))
    ∧ (st.sensorType = AHTXX_I2C_SENSOR.AHT1x_SENSOR →
      (_readMeasurement st bus).1.status = AHTXX_NO_ERROR) := by
  obtain ⟨ev, hev⟩ := readMeasurement_to_bulk st bus ht ha
  constructor
  · intro hty
    have h2 := readMeasurementBulk_state_aht2x
      { st with
          status := busyFlagStatus bus.statusByte
          rawData := Function.update st.rawData 0 bus.statusByte } ev bus
      hty (by simp [hbulk, hty, dataSizeOf]) hnb
    rw [hev, h2]
    refine ⟨rfl, ?_⟩
    by_cases hcrc : crc8Frame bus.bulkBytes = bus.bulkBytes 6 <;>
      simp [hcrc, AHTXX_NO_ERROR, AHTXX_CRC8_ERROR]
  · intro hty
    have h1 := readMeasurementBulk_state_aht1x
      { st with
          status := busyFlagStatus bus.statusByte
          rawData := Function.update st.rawData 0 bus.statusByte } ev bus
      hty (by simp [hbulk, hty, dataSizeOf]) hnb
    rw [hev, h1]

/-- C4 witness: AHT2x, bulk frame [0,0,0,0,0,0,106] whose trailer matches
the CRC8 of its first six bytes, so the transaction ends Ok and the iff
holds with both sides false. -/
theorem C4_crc_gate_witness :
    ((AHTxxState.sensorType ⟨0x38, AHTXX_I2C_SENSOR.AHT2x_SENSOR, AHTXX_NO_ERROR, frameOf []⟩)
        = AHTXX_I2C_SENSOR.AHT2x_SENSOR →
      (_readMeasurement ⟨0x38, AHTXX_I2C_SENSOR.AHT2x_SENSOR, AHTXX_NO_ERROR, frameOf []⟩
          ⟨0, 1, 0x18, 7, frameOf [0, 0, 0, 0, 0, 0, 106]⟩).1.rawData
          = frameOf [0, 0, 0, 0, 0, 0, 106]
      ∧ ((_readMeasurement ⟨0x38, AHTXX_I2C_SENSOR.AHT2x_SENSOR, AHTXX_NO_ERROR, frameOf []⟩
          ⟨0, 1, 0x18, 7, frameOf [0, 0, 0, 0, 0, 0, 106]⟩).1.status = AHTXX_CRC8_ERROR
        ↔ crc8Frame ((_readMeasurement
              ⟨0x38, AHTXX_I2C_SENSOR.AHT2x_SENSOR, AHTXX_NO_ERROR, frameOf []⟩
              ⟨0, 1, 0x18, 7, frameOf [0, 0, 0, 0, 0, 0, 106]⟩).1.rawData)
            ≠ (_readMeasurement ⟨0x38, AHTXX_I2C_SENSOR.AHT2x_SENSOR, AHTXX_NO_ERROR, frameOf []⟩
              ⟨0, 1, 0x18, 7, frameOf [0, 0, 0, 0, 0, 0, 106]⟩).1.rawData 6))
    ∧ ((AHTxxState.sensorType ⟨0x38, AHTXX_I2C_SENSOR.AHT2x_SENSOR, AHTXX_NO_ERROR, frameOf []⟩)
        = AHTXX_I2C_SENSOR.AHT1x_SENSOR →
      (_readMeasurement ⟨0x38, AHTXX_I2C_SENSOR.AHT2x_SENSOR, AHTXX_NO_ERROR, frameOf []⟩
          ⟨0, 1, 0x18, 7, frameOf [0, 0, 0, 0, 0, 0, 106]⟩).1.status = AHTXX_NO_ERROR) :=
  C4_crc_gate ⟨0x38, AHTXX_I2C_SENSOR.AHT2x_SENSOR, AHTXX_NO_ERROR, frameOf []⟩
    ⟨0, 1, 0x18, 7, frameOf [0, 0, 0, 0, 0, 0, 106]⟩
    (by decide) (by decide) (by decide) (by decide)

end AHTxx
